import Mathlib

/-
Shallow embedding of the movie-player subsystem in
`psychopy/visual/movies/players/ffpyplayer_player.py`.

Python floats are modelled as rationals (`ℚ`), machine ints as `ℤ`/`ℕ`,
raised exceptions as `Except PlayerError`.  External collaborators
(the ffpyplayer `MediaPlayer` decoder handle, the `queue.Queue` class,
the `MovieMetadata`/`MovieFrame` value classes from sibling modules and
the status constants from `psychopy.constants`) are modelled from the
spec where their code is not part of this excerpt; each such definition
carries a doc comment saying so.
-/

namespace FFPyPlayerModel

/-- Modelled from the spec: the status constants imported from
`psychopy.constants` (module not in this excerpt).  The spec's status
enum is NotStarted, Playing, Paused, Stopping, Stopped, Finished, and
the source notes (`isFinished`, "why is this the same as STOPPED?")
that FINISHED has the same value as STOPPED, so FINISHED is not a
separate constructor here. -/
inductive MovieStatus where
  | notStarted
  | playing
  | paused
  | stopping
  | stopped
deriving DecidableEq, BEq, Repr

/-- Modelled from the spec: `psychopy.constants.FINISHED`, which shares
its value with `STOPPED`. -/
def FINISHED : MovieStatus := MovieStatus.stopped

/-- The exceptions the embedded methods can raise.
`notLoaded` is the `RuntimeError` raised by `_assertMediaPlayer`
("requires a successful call to `load` first"); `notOpened` is the
`RuntimeError` raised by `stop` ("Cannot close stream, not opened yet");
`typeMismatch` is Python's `TypeError`; `attrError` models the
`AttributeError` Python raises when a method is invoked on a `None`
thread attribute. -/
inductive PlayerError where
  | notLoaded
  | notOpened
  | typeMismatch
  | attrError
deriving DecidableEq, Repr

/-- Modelled from the spec: the metadata `dict` returned by the external
decoder's `get_metadata()`, with the keys the excerpt reads
(`title`, `duration`, `frame_rate`, `src_vid_size`, `src_pix_fmt`).
`frame_rate` is a `(numerator, denominator)` rational pair. -/
structure RawMetadata where
  title : String
  duration : ℚ
  frame_rate : ℤ × ℤ
  src_vid_size : ℕ × ℕ
  src_pix_fmt : String
deriving DecidableEq, Repr

/-- Modelled from the spec: the external Decoder Handle
(`ffpyplayer.player.MediaPlayer`).  Only the state the excerpt
observes is kept: the current presentation timestamp, the pause and
mute flags, and the stream metadata. -/
structure MediaPlayer where
  pts : ℚ
  paused : Bool
  muted : Bool
  metadata : RawMetadata
deriving DecidableEq, Repr

/-- Modelled from the spec: the decoder's `seek(timestamp, relative)`.
The excerpt only ever calls it with `relative=False` (absolute seek);
the decoder then reports the seek target as its presentation time. -/
def MediaPlayer.seek (h : MediaPlayer) (timestamp : ℚ) (_relative : Bool) :
    MediaPlayer :=
  { h with pts := timestamp }

/-- Modelled from the spec: the decoder's `get_pts()`. -/
def MediaPlayer.get_pts (h : MediaPlayer) : ℚ := h.pts

/-- Modelled from the spec: a decoded frame image
(`ffpyplayer.pic.Image`), keeping the byte buffer returned by
`to_bytearray()[0]` and the size returned by `get_size()`. -/
structure FrameImage where
  bytes : List ℕ
  size : ℕ × ℕ
deriving DecidableEq, Repr

/-- Embeds class `StreamStatus` (source lines 36-102): status flag,
stream time, recording time and recording byte count, fixed at
construction. -/
structure StreamStatus where
  status : MovieStatus
  streamTime : ℚ
  recTime : ℚ
  recBytes : ℕ
deriving DecidableEq, Repr

/-- Embeds class `StreamData` (source lines 105-182): the tuple the
reader thread queues for the application thread — stream metadata (the
raw decoder dict), the frame image, a `StreamStatus`, and the camera
library tag. -/
structure StreamData where
  metadata : RawMetadata
  frameImage : FrameImage
  streamStatus : StreamStatus
  cameraLib : String
deriving DecidableEq, Repr

/-- Modelled from the spec: the `MovieMetadata` value class from the
sibling `..metadata` module (not in this excerpt), holding the fields
`FFPyPlayer.getMetadata` populates. -/
structure MovieMetadata where
  mediaPath : String
  title : String
  duration : ℚ
  frameRate : ℤ × ℤ
  size : ℕ × ℕ
  pixelFormat : String
  movieLib : String
deriving DecidableEq, Repr

/-- Modelled from the spec: `MovieMetadata.frameInterval`, the duration
a single frame is presented — the reciprocal of the frame rate, i.e.
denominator over numerator. -/
def MovieMetadata.frameInterval (m : MovieMetadata) : ℚ :=
  (m.frameRate.2 : ℚ) / (m.frameRate.1 : ℚ)

/-- Modelled from the spec: the `MovieFrame` value class from the
sibling `..frame` module (not in this excerpt), with the fields
`_enqueueFrame` populates and the claims read. -/
structure MovieFrame where
  frameIndex : ℤ
  absTime : ℚ
  size : ℕ × ℕ
  colorData : List ℕ
  movieLib : String
deriving DecidableEq, Repr

/-- Modelled from the spec: `NULL_MOVIE_FRAME_INFO`, the null/sentinel
frame — frame index `-1` means invalid/unset, and the sentinel carries
no pixel data. -/
def NULL_MOVIE_FRAME_INFO : MovieFrame :=
  { frameIndex := -1
    absTime := -1
    size := (0, 0)
    colorData := []
    movieLib := "ffpyplayer" }

/-- Modelled from the spec: the Python standard-library `queue.Queue`
bounded FIFO used as the frame buffer queue, with its fixed `maxsize`
and its item list (front of the list is the head of the queue). -/
structure FrameQueue (α : Type) where
  maxsize : ℕ
  items : List α
deriving DecidableEq, Repr

/-- Modelled from the spec: `queue.Queue.full()` — true when the queue
is bounded (`maxsize > 0`) and holds at least `maxsize` items. -/
def FrameQueue.full {α : Type} (q : FrameQueue α) : Bool :=
  decide (0 < q.maxsize ∧ q.maxsize ≤ q.items.length)

/-- Modelled from the spec: `queue.Queue.put` appending at the tail
(only ever reached on a non-full queue in the excerpt, so it never
blocks there). -/
def FrameQueue.put {α : Type} (q : FrameQueue α) (x : α) : FrameQueue α :=
  { q with items := q.items ++ [x] }

/-- Embeds the producer's publish step in `MovieStreamThread.run`
(source lines 284-296): `if not self._frameQueue.full(): ... put(...)`.
This is the non-blocking `tryPut` of the spec: on a full queue the
entry is discarded and the queue is left as it was; otherwise the entry
is appended.  The returned `Bool` reports whether the entry was
enqueued. -/
def FrameQueue.tryPut {α : Type} (q : FrameQueue α) (x : α) :
    Bool × FrameQueue α :=
  if q.full then (false, q) else (true, q.put x)

/-- Embeds the mutable state of class `MovieStreamThread`
(source lines 185-354): the frame queue handed to the monitor, the
user-visible status and stream time, and the four `threading.Event`
flags (an event models as a `Bool`: `set()` makes it true, `clear()`
false). -/
structure MovieStreamThread where
  frameQueue : FrameQueue StreamData
  status : MovieStatus
  streamTime : ℚ
  isReadyEvent : Bool
  isPlaying : Bool
  isStreamingEvent : Bool
  stopSignal : Bool
deriving DecidableEq, Repr

/-- Embeds `MovieStreamThread.__init__` (source lines 203-217): a fresh
queue of `bufferFrames` capacity (default 1), status `NOT_STARTED`,
stream time zero and all events cleared.  The decoder handle reference
`self._player` lives in the facade model. -/
def MovieStreamThread.init (bufferFrames : ℕ := 1) : MovieStreamThread :=
  { frameQueue := { maxsize := bufferFrames, items := [] }
    status := MovieStatus.notStarted
    streamTime := 0
    isReadyEvent := false
    isPlaying := false
    isStreamingEvent := false
    stopSignal := false }

/-- Embeds `MovieStreamThread.play` (source lines 321-325):
`self._isPlaying.set()`. -/
def MovieStreamThread.play (r : MovieStreamThread) : MovieStreamThread :=
  { r with isPlaying := true }

/-- Embeds `MovieStreamThread.pause` (source lines 327-330):
`self._isPlaying.clear()`. -/
def MovieStreamThread.pause (r : MovieStreamThread) : MovieStreamThread :=
  { r with isPlaying := false }

/-- Embeds `MovieStreamThread.shutdown` (source lines 332-335):
`self._stopSignal.set()`. -/
def MovieStreamThread.shutdown (r : MovieStreamThread) : MovieStreamThread :=
  { r with stopSignal := true }

/-- The play/pause signals the main thread can send to the reader
before the reader loop next observes the `_isPlaying` flag. -/
inductive Signal where
  | play
  | pause
deriving DecidableEq, Repr

/-- Delivering one signal to the reader: `play()` sets the level-
triggered `_isPlaying` event, `pause()` clears it. -/
def applySignal (r : MovieStreamThread) : Signal → MovieStreamThread
  | Signal.play => r.play
  | Signal.pause => r.pause

/-- Delivering a sequence of signals in order, before the reader's next
look at the flag. -/
def applySignals (r : MovieStreamThread) (sigs : List Signal) :
    MovieStreamThread :=
  sigs.foldl applySignal r

/-- Embeds the flag observation at the top of the reader loop
(source lines 246-249): `statusFlag = PLAYING if self._isPlaying.is_set()
else PAUSED`. -/
def MovieStreamThread.observePlayPause (r : MovieStreamThread) : MovieStatus :=
  if r.isPlaying then MovieStatus.playing else MovieStatus.paused

/-- Modelled from the spec: the `val` string returned alongside frame
data by the decoder's `get_frame()` — empty (normal), `eof`,
`not ready`, or `paused`. -/
inductive GetFrameVal where
  | normal
  | eof
  | notReady
  | pausedVal
deriving DecidableEq, Repr

/-- Result of one pass through the `PLAYING` branch of the reader loop:
the thread state, the (local) dynamic polling interval, and the (local)
`statusFlag` on leaving the branch. -/
structure CycleResult where
  thread : MovieStreamThread
  frameInterval : ℚ
  statusFlag : MovieStatus
deriving DecidableEq, Repr

/-- Embeds the tail of the `PLAYING` branch of `MovieStreamThread.run`
(source lines 251-299), entered with `statusFlag = PLAYING` once the
inner retry loop has produced a valid frame `(img, pts)` with result
string `val`.  The while/else sets `_isReadyEvent`; `get_metadata()`
returns `md`; if the reported frame-rate denominator is zero the
iteration `continue`s (nothing published, interval unchanged);
otherwise the interval becomes `1.0 / (numer / denom)`, the stream
time becomes the frame's `pts`, the `(metadata, img, status)` record is
offered to the queue via the full-check-then-put pattern, and an `eof`
result switches the flag to `STOPPING`.  The decoder `get_pause` /
`set_pause` calls at the top of the branch act only on the external
handle and have no effect on this state. -/
def playingCycle (r : MovieStreamThread) (frameInterval : ℚ)
    (img : FrameImage) (pts : ℚ) (val : GetFrameVal) (md : RawMetadata) :
    CycleResult :=
  let r0 := { r with isReadyEvent := true }
  let numer := md.frame_rate.1
  let denom := md.frame_rate.2
  if denom = 0 then
    { thread := r0, frameInterval := frameInterval
      statusFlag := MovieStatus.playing }
  else
    let newInterval : ℚ := 1 / ((numer : ℚ) / (denom : ℚ))
    let r1 := { r0 with streamTime := pts }
    let streamStatus : StreamStatus :=
      { status := MovieStatus.playing
        streamTime := r1.streamTime
        recTime := 0
        recBytes := 0 }
    let toReturn : StreamData :=
      { metadata := md
        frameImage := img
        streamStatus := streamStatus
        cameraLib := "ffpyplayer" }
    let r2 := { r1 with frameQueue := (r1.frameQueue.tryPut toReturn).2 }
    { thread := r2
      frameInterval := newInterval
      statusFlag :=
        if val = GetFrameVal.eof then MovieStatus.stopping
        else MovieStatus.playing }

/-- Embeds the end-of-iteration stop check of `MovieStreamThread.run`
(source lines 307-309): if the stop signal is set or the flag is
`STOPPING`, the flag becomes `STOPPED` and the loop exits. -/
def stopCheck (stopSignal : Bool) (statusFlag : MovieStatus) : MovieStatus :=
  if stopSignal || statusFlag == MovieStatus.stopping then MovieStatus.stopped
  else statusFlag

/-- Embeds `MovieStreamThread.getRecentFrame` (source lines 337-354):
`None` when the queue is empty, otherwise the head entry dequeued with
`get_nowait()`. -/
def MovieStreamThread.getRecentFrame (r : MovieStreamThread) :
    Option StreamData × MovieStreamThread :=
  match r.frameQueue.items with
  | [] => (none, r)
  | d :: rest =>
      (some d, { r with frameQueue := { r.frameQueue with items := rest } })

/-- Embeds the mutable state of class `FFPyPlayer`
(source lines 357-1040).  `handle` is `self._handle` (`None` when no
decoder is open), `tStream` is `self._tStream`, `lastFrame` is
`self._lastFrame` (absent until `_enqueueFrame` first sets it), and
`streamTime` / `recordingTime` / `recordingBytes` are the status
fields `_enqueueFrame` copies out of a dequeued `StreamStatus`. -/
structure FFPyPlayer where
  filename : String
  handle : Option MediaPlayer
  queuedFrame : MovieFrame
  frameIndex : ℤ
  needsNewFrame : Bool
  status : MovieStatus
  tStream : Option MovieStreamThread
  lastFrame : Option MovieFrame
  streamTime : ℚ
  recordingTime : ℚ
  recordingBytes : ℕ
deriving DecidableEq, Repr

/-- Embeds `FFPyPlayer.__init__` (source lines 368-383). -/
def FFPyPlayer.init : FFPyPlayer :=
  { filename := ""
    handle := none
    queuedFrame := NULL_MOVIE_FRAME_INFO
    frameIndex := -1
    needsNewFrame := false
    status := MovieStatus.notStarted
    tStream := none
    lastFrame := none
    streamTime := 0
    recordingTime := 0
    recordingBytes := 0 }

/-- Embeds `FFPyPlayer.start` (source lines 385-417).  Opening
`MediaPlayer(self._filename, ...)` is an external effect, so the
freshly opened decoder handle is an oracle argument.  The method
resets the queued-frame sentinel and frame index, opens the handle,
mutes, unpauses and blocking-pulls frames until one is valid (the
pulled frames are discarded, so only the decoder's internal progress —
not modelled — changes), re-pauses, seeks to `0.0` absolutely, unmutes,
sets status `NOT_STARTED`, and spawns a fresh reader thread. -/
def FFPyPlayer.start (p : FFPyPlayer) (freshHandle : MediaPlayer) :
    FFPyPlayer :=
  let h0 := { freshHandle with muted := true, paused := false }
  let h1 := { h0 with paused := true }
  let h2 := h1.seek 0 false
  let h3 := { h2 with muted := false }
  { p with
      queuedFrame := NULL_MOVIE_FRAME_INFO
      frameIndex := -1
      handle := some h3
      status := MovieStatus.notStarted
      tStream := some (MovieStreamThread.init 1) }

/-- Embeds `FFPyPlayer.unload` (source lines 454-460):
`close_player()`, clear the filename, reset the frame index, drop the
handle. -/
def FFPyPlayer.unload (p : FFPyPlayer) : FFPyPlayer :=
  { p with filename := "", frameIndex := -1, handle := none }

/-- Embeds `FFPyPlayer.load` (source lines 419-452): record the new
filename, `unload()` first when a handle is already open, then
`start()` (with the oracle handle for the decoder it opens) and set
status `NOT_STARTED`.  (The `untitled.mp4` substitution at lines
430-431 is overwritten by the unconditional assignment at line 433 and
so has no effect on this state.) -/
def FFPyPlayer.load (p : FFPyPlayer) (pathToMovie : String)
    (freshHandle : MediaPlayer) : FFPyPlayer :=
  let p1 := { p with filename := pathToMovie }
  let p2 := if p1.handle.isSome then p1.unload else p1
  let p3 := p2.start freshHandle
  { p3 with status := MovieStatus.notStarted }

/-- Embeds `FFPyPlayer._assertMediaPlayer` (source lines 509-518) as a
guard: no open handle means the `RuntimeError` asking for a successful
`load` first. -/
def FFPyPlayer.assertMediaPlayer (p : FFPyPlayer) :
    Except PlayerError MediaPlayer :=
  match p.handle with
  | none => Except.error PlayerError.notLoaded
  | some h => Except.ok h

/-- Embeds the property `FFPyPlayer.pts` (source lines 781-792):
`-1.0` when no handle is open, otherwise the decoder's `get_pts()`. -/
def FFPyPlayer.pts (p : FFPyPlayer) : ℚ :=
  match p.handle with
  | none => -1
  | some h => h.get_pts

/-- Embeds `FFPyPlayer.getMetadata` (source lines 479-507): assert the
handle, then copy the decoder's metadata dict into a `MovieMetadata`
record. -/
def FFPyPlayer.getMetadata (p : FFPyPlayer) :
    Except PlayerError MovieMetadata :=
  match p.handle with
  | none => Except.error PlayerError.notLoaded
  | some h =>
      Except.ok
        { mediaPath := p.filename
          title := h.metadata.title
          duration := h.metadata.duration
          frameRate := h.metadata.frame_rate
          size := h.metadata.src_vid_size
          pixelFormat := h.metadata.src_pix_fmt
          movieLib := "ffpyplayer" }

/-- Embeds `FFPyPlayer.isStopped` (source lines 540-544):
`status == STOPPED`. -/
def FFPyPlayer.isStopped (p : FFPyPlayer) : Bool :=
  p.status == MovieStatus.stopped

/-- Embeds `FFPyPlayer.isFinished` (source lines 554-559):
`status == FINISHED`. -/
def FFPyPlayer.isFinished (p : FFPyPlayer) : Bool :=
  p.status == FINISHED

/-- Embeds `FFPyPlayer.play` (source lines 561-581): assert the handle,
signal the reader thread to play, set the facade status `PLAYING`.
A missing reader thread (`self._tStream is None`) makes
`self._tStream.play()` raise before the status assignment. -/
def FFPyPlayer.play (p : FFPyPlayer) : Except PlayerError FFPyPlayer :=
  match p.handle with
  | none => Except.error PlayerError.notLoaded
  | some _ =>
      match p.tStream with
      | none => Except.error PlayerError.attrError
      | some r =>
          Except.ok
            { p with tStream := some r.play, status := MovieStatus.playing }

/-- Embeds `FFPyPlayer.pause` (source lines 607-621): assert the
handle, signal the reader thread to pause, and return `False`
unconditionally (the facade never confirms the pause). -/
def FFPyPlayer.pause (p : FFPyPlayer) :
    Except PlayerError (Bool × FFPyPlayer) :=
  match p.handle with
  | none => Except.error PlayerError.notLoaded
  | some _ =>
      match p.tStream with
      | none => Except.error PlayerError.attrError
      | some r => Except.ok (false, { p with tStream := some r.pause })

/-- Embeds `FFPyPlayer.stop` (source lines 583-605): with no handle,
raise "Cannot close stream, not opened yet"; otherwise signal the
reader to shut down, join it (the loop exits via `stopCheck`), release
the thread, close the decoder and drop the handle.  The facade status
is not touched. -/
def FFPyPlayer.stop (p : FFPyPlayer) : Except PlayerError FFPyPlayer :=
  match p.handle with
  | none => Except.error PlayerError.notOpened
  | some _ =>
      match p.tStream with
      | none => Except.error PlayerError.attrError
      | some r =>
          let _joined := r.shutdown
          Except.ok { p with tStream := none, handle := none }

/-- Embeds `FFPyPlayer.seek` (source lines 623-638): assert the handle,
absolute decoder seek (`relative=False`), reset `self._queuedFrame` to
the null sentinel, and return the decoder's reported `get_pts()`. -/
def FFPyPlayer.seek (p : FFPyPlayer) (timestamp : ℚ) :
    Except PlayerError (ℚ × FFPyPlayer) :=
  match p.handle with
  | none => Except.error PlayerError.notLoaded
  | some h =>
      let h1 := h.seek timestamp false
      let p1 :=
        { p with handle := some h1, queuedFrame := NULL_MOVIE_FRAME_INFO }
      Except.ok (h1.get_pts, p1)

/-- Embeds `FFPyPlayer.rewind` (source lines 640-663): assert the
handle, seek to `self.pts - seconds`, return the decoder's `get_pts()`
afterwards. -/
def FFPyPlayer.rewind (p : FFPyPlayer) (seconds : ℚ := 5) :
    Except PlayerError (ℚ × FFPyPlayer) :=
  match p.handle with
  | none => Except.error PlayerError.notLoaded
  | some _ =>
      let timestamp := p.pts - seconds
      match p.seek timestamp with
      | Except.error e => Except.error e
      | Except.ok (_, p1) => Except.ok (p1.pts, p1)

/-- Embeds `FFPyPlayer.fastForward` (source lines 665-687): assert the
handle, seek to `self.pts + seconds`, return the decoder's `get_pts()`
afterwards. -/
def FFPyPlayer.fastForward (p : FFPyPlayer) (seconds : ℚ := 5) :
    Except PlayerError (ℚ × FFPyPlayer) :=
  match p.handle with
  | none => Except.error PlayerError.notLoaded
  | some _ =>
      let timestamp := p.pts + seconds
      match p.seek timestamp with
      | Except.error e => Except.error e
      | Except.ok (_, p1) => Except.ok (p1.pts, p1)

/-- Embeds `FFPyPlayer.replay` (source lines 689-712): remember the
filename, `stop()` (whose error propagates with no state change
before it), `load` the same file again, and call `start()` once more;
the two decoder opens take oracle handles.  `autoStart` is accepted
but unused in the source body. -/
def FFPyPlayer.replay (p : FFPyPlayer) (_autoStart : Bool)
    (freshHandle1 freshHandle2 : MediaPlayer) :
    Except PlayerError FFPyPlayer :=
  let lastMovieFile := p.filename
  match p.stop with
  | Except.error e => Except.error e
  | Except.ok p1 =>
      let p2 := p1.load lastMovieFile freshHandle1
      Except.ok (p2.start freshHandle2)

/-- Embeds `FFPyPlayer.getStartAbsTime` (source lines 794-810):
`getTime() - get_pts()`, with the experiment wall clock passed
explicitly as `now`. -/
def FFPyPlayer.getStartAbsTime (p : FFPyPlayer) (now : ℚ) :
    Except PlayerError ℚ :=
  match p.handle with
  | none => Except.error PlayerError.notLoaded
  | some h => Except.ok (now - h.get_pts)

/-- Embeds `FFPyPlayer.movieToAbsTime` (source lines 812-836):
`getStartAbsTime() + movieTime`. -/
def FFPyPlayer.movieToAbsTime (p : FFPyPlayer) (now movieTime : ℚ) :
    Except PlayerError ℚ :=
  match p.handle with
  | none => Except.error PlayerError.notLoaded
  | some h => Except.ok ((now - h.get_pts) + movieTime)

/-- Embeds `FFPyPlayer.absToMovieTime` (source lines 838-871):
`absTime - getStartAbsTime()`. -/
def FFPyPlayer.absToMovieTime (p : FFPyPlayer) (now absTime : ℚ) :
    Except PlayerError ℚ :=
  match p.handle with
  | none => Except.error PlayerError.notLoaded
  | some h => Except.ok (absTime - (now - h.get_pts))

/-- Embeds `FFPyPlayer.movieTimeFromFrameIndex` (source lines 873-891):
assert the handle, then `frameIdx * metadata.frameInterval`. -/
def FFPyPlayer.movieTimeFromFrameIndex (p : FFPyPlayer) (frameIdx : ℤ) :
    Except PlayerError ℚ :=
  match p.getMetadata with
  | Except.error e => Except.error e
  | Except.ok metadata => Except.ok ((frameIdx : ℚ) * metadata.frameInterval)

/-- Embeds `FFPyPlayer.frameIndexFromMovieTime` (source lines 893-911):
assert the handle, then `math.floor(movieTime / metadata.frameInterval)`. -/
def FFPyPlayer.frameIndexFromMovieTime (p : FFPyPlayer) (movieTime : ℚ) :
    Except PlayerError ℤ :=
  match p.getMetadata with
  | Except.error e => Except.error e
  | Except.ok metadata => Except.ok ⌊movieTime / metadata.frameInterval⌋

/-- Embeds `FFPyPlayer._enqueueFrame` with the default
`blockUntilFrame=True` (source lines 962-1020, the only mode the
excerpt uses): assert the handle, poll `getRecentFrame` until it yields
an entry — `none` here models the call spinning forever because the
queue is empty and stays empty — then copy the status fields, build a
`MovieFrame` from the dequeued image (`frameIndex` is the facade's
`_frameIndex`, `absTime` the status `recTime`, `colorData` the image
bytes) and store it as `self._lastFrame`. -/
def FFPyPlayer.enqueueFrame (p : FFPyPlayer) :
    Except PlayerError (Option FFPyPlayer) :=
  match p.handle with
  | none => Except.error PlayerError.notLoaded
  | some _ =>
      match p.tStream with
      | none => Except.error PlayerError.attrError
      | some r =>
          match r.getRecentFrame with
          | (none, _) => Except.ok none
          | (some enqueuedFrame, r1) =>
              let newFrame : MovieFrame :=
                { frameIndex := p.frameIndex
                  absTime := enqueuedFrame.streamStatus.recTime
                  size := enqueuedFrame.frameImage.size
                  colorData := enqueuedFrame.frameImage.bytes
                  movieLib := "ffpyplayer" }
              Except.ok (some
                { p with
                    tStream := some r1
                    streamTime := enqueuedFrame.streamStatus.streamTime
                    recordingTime := enqueuedFrame.streamStatus.recTime
                    recordingBytes := enqueuedFrame.streamStatus.recBytes
                    lastFrame := some newFrame })

/-- Embeds `FFPyPlayer.getMovieFrame` (source lines 1022-1040): assert
the handle, `_enqueueFrame()` (blocking), then return
`self._lastFrame`.  `absTime` is accepted but never read by the
source.  `Except.ok none` models the blocking enqueue never returning
(empty queue with no producer). -/
def FFPyPlayer.getMovieFrame (p : FFPyPlayer) (_absTime : ℚ) :
    Except PlayerError (Option (MovieFrame × FFPyPlayer)) :=
  match p.enqueueFrame with
  | Except.error e => Except.error e
  | Except.ok none => Except.ok none
  | Except.ok (some p1) =>
      Except.ok (p1.lastFrame.map (fun f => (f, p1)))

/-- The facade operations of the claim C9 sequence (`load`, `start`,
`play`, `pause`, `seek`, `stop`, `replay`).  Operations that open a
decoder carry the oracle handle(s) the external open returns. -/
inductive FacadeOp where
  | loadOp (path : String) (freshHandle : MediaPlayer)
  | startOp (freshHandle : MediaPlayer)
  | playOp
  | pauseOp
  | seekOp (t : ℚ)
  | stopOp
  | replayOp (autoStart : Bool) (freshHandle1 freshHandle2 : MediaPlayer)

/-- The facade state after one operation.  For the fallible methods the
source raises before any mutation, so the post-state on an error is the
pre-state. -/
def applyOp (p : FFPyPlayer) : FacadeOp → FFPyPlayer
  | FacadeOp.loadOp path h => p.load path h
  | FacadeOp.startOp h => p.start h
  | FacadeOp.playOp =>
      match p.play with
      | Except.error _ => p
      | Except.ok p1 => p1
  | FacadeOp.pauseOp =>
      match p.pause with
      | Except.error _ => p
      | Except.ok (_, p1) => p1
  | FacadeOp.seekOp t =>
      match p.seek t with
      | Except.error _ => p
      | Except.ok (_, p1) => p1
  | FacadeOp.stopOp =>
      match p.stop with
      | Except.error _ => p
      | Except.ok p1 => p1
  | FacadeOp.replayOp a h1 h2 =>
      match p.replay a h1 h2 with
      | Except.error _ => p
      | Except.ok p1 => p1

/-- The facade state after a sequence of operations, first op first. -/
def applyOps (p : FFPyPlayer) (ops : List FacadeOp) : FFPyPlayer :=
  ops.foldl applyOp p

/-- A dynamically typed Python value offered to a `StreamData` property
setter: `None`, a `MovieMetadata` instance, a `StreamStatus` instance,
or any other object. -/
inductive PyValue where
  | pyNone
  | movieMeta (m : MovieMetadata)
  | streamStat (s : StreamStatus)
  | otherObj (tag : String)
deriving DecidableEq, Repr

/-- `isinstance(value, MovieMetadata)`. -/
def isinstanceMovieMetadata : PyValue → Bool
  | PyValue.movieMeta _ => true
  | _ => false

/-- `isinstance(value, StreamStatus)`. -/
def isinstanceStreamStatus : PyValue → Bool
  | PyValue.streamStat _ => true
  | _ => false

/-- `value is None`. -/
def pyIsNone : PyValue → Bool
  | PyValue.pyNone => true
  | _ => false

/-- Embeds the `StreamData.metadata` property setter (source lines
142-148): raise `TypeError` when
`(not isinstance(value, MovieMetadata)) or (value is not None)` holds;
only otherwise assign.  The assignment branch is unreachable for every
input (no value is both a `MovieMetadata` instance and `None`), so it
returns the record unchanged. -/
def StreamData.setMetadata (d : StreamData) (value : PyValue) :
    Except PlayerError StreamData :=
  if !(isinstanceMovieMetadata value) || !(pyIsNone value) then
    Except.error PlayerError.typeMismatch
  else
    Except.ok d

/-- Embeds the `StreamData.streamStatus` property setter (source lines
166-172): raise `TypeError` when
`(not isinstance(value, StreamStatus)) or (value is not None)` holds;
only otherwise assign.  As with `setMetadata`, the assignment branch is
unreachable for every input. -/
def StreamData.setStreamStatus (d : StreamData) (value : PyValue) :
    Except PlayerError StreamData :=
  if !(isinstanceStreamStatus value) || !(pyIsNone value) then
    Except.error PlayerError.typeMismatch
  else
    Except.ok d

/- Concrete states used by counterexamples and witnesses: a 30 fps
movie, two seconds in, with one decoded frame already sitting in the
reader's queue. -/

/-- A concrete decoder metadata dict for a 30 fps movie. -/
def exMeta : RawMetadata :=
  { title := "example"
    duration := 10
    frame_rate := (30, 1)
    src_vid_size := (2, 2)
    src_pix_fmt := "rgb24" }

/-- A concrete open decoder handle, two seconds into the movie. -/
def exHandle : MediaPlayer :=
  { pts := 2, paused := false, muted := false, metadata := exMeta }

/-- A concrete decoded frame image with one pixel byte. -/
def exImage : FrameImage := { bytes := [42], size := (2, 2) }

/-- A concrete queue entry produced by the reader before any seek. -/
def exStreamData : StreamData :=
  { metadata := exMeta
    frameImage := exImage
    streamStatus :=
      { status := MovieStatus.playing, streamTime := 2, recTime := 0
        recBytes := 0 }
    cameraLib := "ffpyplayer" }

/-- A concrete reader thread holding `exStreamData` in its queue. -/
def exReader : MovieStreamThread :=
  { frameQueue := { maxsize := 1, items := [exStreamData] }
    status := MovieStatus.notStarted
    streamTime := 2
    isReadyEvent := true
    isPlaying := true
    isStreamingEvent := false
    stopSignal := false }

/-- A concrete loaded, playing facade whose reader queue already holds
a frame produced before any seek. -/
def exPlayer : FFPyPlayer :=
  { filename := "movie.mp4"
    handle := some exHandle
    queuedFrame := NULL_MOVIE_FRAME_INFO
    frameIndex := -1
    needsNewFrame := false
    status := MovieStatus.playing
    tStream := some exReader
    lastFrame := none
    streamTime := 0
    recordingTime := 0
    recordingBytes := 0 }

/-- The facade state expected after `exPlayer.seek 5`: absolute decoder
seek to 5 s and the `_queuedFrame` sentinel reset; queue and
`_lastFrame` untouched. -/
def exPlayerSought : FFPyPlayer :=
  { exPlayer with
      handle := some { exHandle with pts := 5 }
      queuedFrame := NULL_MOVIE_FRAME_INFO }

/-- The `MovieFrame` that `getMovieFrame` builds from the pre-seek
queue entry `exStreamData`. -/
def exFrameGot : MovieFrame :=
  { frameIndex := -1
    absTime := 0
    size := (2, 2)
    colorData := [42]
    movieLib := "ffpyplayer" }

/-- The reader after its single queued entry has been dequeued. -/
def exReaderDrained : MovieStreamThread :=
  { exReader with frameQueue := { maxsize := 1, items := [] } }

/-- The facade state after `exPlayerSought.getMovieFrame`. -/
def exPlayerAfterGet : FFPyPlayer :=
  { exPlayerSought with
      tStream := some exReaderDrained
      streamTime := 2
      recordingTime := 0
      recordingBytes := 0
      lastFrame := some exFrameGot }

/-- A decoder metadata dict whose frame rate still has the invalid
zero denominator. -/
def exMetaDenZero : RawMetadata := { exMeta with frame_rate := (30, 0) }

/-- A full frame buffer queue of capacity 1. -/
def exFullQueue : FrameQueue StreamData :=
  { maxsize := 1, items := [exStreamData] }

/-- C1, counterexample: with a frame already sitting in the reader's
queue, `seek 5` resets only `_queuedFrame` to the sentinel; the very
next `getMovieFrame` dequeues the pre-seek entry and returns a frame
carrying its pixel bytes — not the null sentinel — so `getMovieFrame`
can return a frame cached before the seek. -/
theorem c1_counterexample :
    exPlayer.seek 5 = Except.ok (5, exPlayerSought)
    ∧ exPlayerSought.getMovieFrame 6 =
        Except.ok (some (exFrameGot, exPlayerAfterGet))
    ∧ exFrameGot.colorData = exImage.bytes
    ∧ exFrameGot.colorData ≠ NULL_MOVIE_FRAME_INFO.colorData := by
  refine ⟨rfl, rfl, rfl, ?_⟩
  decide

/-- C1, amended: for every open player, `seek t` performs an absolute
(non-relative) decoder seek, resets the facade's `_queuedFrame` cache
to the null/sentinel frame, and returns the decoder's reported
post-seek presentation time — but it touches no other facade state (in
particular not the frame queue or `_lastFrame`, the cache a subsequent
`getMovieFrame` actually returns). -/
theorem c1_seek_behaviour (p : FFPyPlayer) (hd : MediaPlayer) (t : ℚ)
    (hh : p.handle = some hd) :
    p.seek t =
      Except.ok ((hd.seek t false).get_pts,
        { p with
            handle := some (hd.seek t false)
            queuedFrame := NULL_MOVIE_FRAME_INFO }) := by
  simp [FFPyPlayer.seek, hh]

/-- C1, witness for the amended theorem at the concrete player. -/
theorem c1_seek_behaviour_witness :
    exPlayer.seek 5 =
      Except.ok ((exHandle.seek 5 false).get_pts,
        { exPlayer with
            handle := some (exHandle.seek 5 false)
            queuedFrame := NULL_MOVIE_FRAME_INFO }) :=
  c1_seek_behaviour exPlayer exHandle 5 rfl

/-- C2: publishing to a full frame buffer queue reports failure
(`false`), discards the entry, and leaves the queue exactly as it was;
`tryPut` is a total function, so the producer never blocks. -/
theorem c2_tryPut_full (α : Type) (q : FrameQueue α) (x : α)
    (hfull : q.items.length = q.maxsize) (hcap : 0 < q.maxsize) :
    q.tryPut x = (false, q) := by
  have hf : q.full = true := by
    simp [FrameQueue.full, hfull, hcap]
  simp [FrameQueue.tryPut, hf]

/-- C2, witness: a capacity-1 queue already holding one entry. -/
theorem c2_tryPut_full_witness :
    exFullQueue.tryPut exStreamData = (false, exFullQueue) :=
  c2_tryPut_full StreamData exFullQueue exStreamData rfl (by decide)

/-- C3: whatever play/pause signals reach the reader before it next
observes the `_isPlaying` flag, the observed state is decided solely by
the last signal — `PLAYING` after `play()`, `PAUSED` after `pause()` —
with no intermediate queued state (the flag's final level is exactly
`last = play`, independent of the earlier signals and of the reader's
prior state). -/
theorem c3_last_signal_wins (r : MovieStreamThread) (pre : List Signal)
    (s : Signal) :
    (applySignals r (pre ++ [s])).observePlayPause =
      (if s = Signal.play then MovieStatus.playing else MovieStatus.paused)
    ∧ (applySignals r (pre ++ [s])).isPlaying = decide (s = Signal.play) := by
  unfold applySignals
  rw [List.foldl_append]
  cases s <;>
    simp [applySignal, MovieStreamThread.play, MovieStreamThread.pause,
      MovieStreamThread.observePlayPause]

/-- C4: when decoder metadata reports frame rate `(num, den)` with
`num > 0` and `den > 0`, the polling interval the reader computes is
exactly `den / num` seconds; and when `den = 0` the cycle publishes
nothing (the frame queue is unchanged) and retries with the interval it
already had. -/
theorem c4_polling_interval (r : MovieStreamThread) (fi : ℚ)
    (img : FrameImage) (pts : ℚ) (val : GetFrameVal) (md : RawMetadata)
    (num den : ℤ) (hfr : md.frame_rate = (num, den)) :
    (0 < num → 0 < den →
      (playingCycle r fi img pts val md).frameInterval =
        (den : ℚ) / (num : ℚ))
    ∧ (den = 0 →
      (playingCycle r fi img pts val md).thread.frameQueue = r.frameQueue
      ∧ (playingCycle r fi img pts val md).frameInterval = fi) := by
  constructor
  · intro _ hden
    have hden0 : den ≠ 0 := ne_of_gt hden
    simp [playingCycle, hfr, hden0, one_div_div]
  · intro hden
    constructor <;> simp [playingCycle, hfr, hden]

/-- C4, witness: a 30/1 frame rate yields interval 1/30; a zero
denominator leaves the queue untouched. -/
theorem c4_polling_interval_witness :
    (playingCycle exReader (1 / 1000) exImage 2 GetFrameVal.normal
        exMeta).frameInterval = ((1 : ℤ) : ℚ) / ((30 : ℤ) : ℚ)
    ∧ (playingCycle exReader (1 / 1000) exImage 2 GetFrameVal.normal
        exMetaDenZero).thread.frameQueue = exReader.frameQueue :=
  ⟨(c4_polling_interval exReader (1 / 1000) exImage 2 GetFrameVal.normal
      exMeta 30 1 rfl).1 (by decide) (by decide),
   ((c4_polling_interval exReader (1 / 1000) exImage 2 GetFrameVal.normal
      exMetaDenZero 30 0 rfl).2 rfl).1⟩

/-- C5: for a loaded movie whose metadata frame interval (denominator
over numerator of the reported frame rate) is positive, converting a
non-negative frame index to movie time and back is the identity —
`floor((i * frameInterval) / frameInterval) = i` exactly in the
embedded arithmetic. -/
theorem c5_frame_index_roundtrip (p : FFPyPlayer) (hd : MediaPlayer)
    (i : ℤ) (hh : p.handle = some hd)
    (hpos : 0 < ((hd.metadata.frame_rate.2 : ℚ) /
      (hd.metadata.frame_rate.1 : ℚ)))
    (_hi : 0 ≤ i) :
    (p.movieTimeFromFrameIndex i).bind p.frameIndexFromMovieTime =
      Except.ok i := by
  have hne : ((hd.metadata.frame_rate.2 : ℚ) /
      (hd.metadata.frame_rate.1 : ℚ)) ≠ 0 := ne_of_gt hpos
  simp [FFPyPlayer.movieTimeFromFrameIndex, FFPyPlayer.frameIndexFromMovieTime,
    FFPyPlayer.getMetadata, hh, Except.bind, MovieMetadata.frameInterval,
    mul_div_cancel_right₀ _ hne]

/-- C5, witness: index 150 of a 30 fps movie. -/
theorem c5_frame_index_roundtrip_witness :
    (exPlayer.movieTimeFromFrameIndex 150).bind
      exPlayer.frameIndexFromMovieTime = Except.ok 150 :=
  c5_frame_index_roundtrip exPlayer exHandle 150 rfl
    (by norm_num [exHandle, exMeta]) (by decide)

/-- C6: with the experiment clock and decoder pts fixed across the two
calls (the state both conversions read), `movieToAbsTime ∘ absToMovieTime`
returns its input exactly, hence certainly to within the claimed
1e-5 s. -/
theorem c6_time_roundtrip (p : FFPyPlayer) (hd : MediaPlayer)
    (now x : ℚ) (hh : p.handle = some hd) :
    (p.absToMovieTime now x).bind (p.movieToAbsTime now) = Except.ok x
    ∧ ∀ y, (p.absToMovieTime now x).bind (p.movieToAbsTime now) =
        Except.ok y → |y - x| ≤ 1 / 100000 := by
  have hmain :
      (p.absToMovieTime now x).bind (p.movieToAbsTime now) = Except.ok x := by
    simp [FFPyPlayer.absToMovieTime, FFPyPlayer.movieToAbsTime, hh,
      Except.bind]
  refine ⟨hmain, ?_⟩
  intro y hy
  rw [hmain] at hy
  cases hy
  simp

/-- C6, witness: the round trip at clock time 100 s and input 7 s. -/
theorem c6_time_roundtrip_witness :
    (exPlayer.absToMovieTime 100 7).bind (exPlayer.movieToAbsTime 100) =
      Except.ok 7 :=
  (c6_time_roundtrip exPlayer exHandle 100 7 rfl).1

/-- C7: with no decoder handle open, every transport and timing
operation other than `load`/`start` — `play`, `pause`, `seek`,
`rewind`, `fastForward`, `getMovieFrame`, `getMetadata`,
`movieToAbsTime`, `absToMovieTime`, `frameIndexFromMovieTime`,
`movieTimeFromFrameIndex` — raises the not-loaded error; the facade
state is unchanged by the failed transport calls (the source raises
before any assignment), and the facade remains usable: `load` still
opens a handle. -/
theorem c7_not_loaded_errors (p : FFPyPlayer) (hp : p.handle = none)
    (t seconds now absT : ℚ) (i : ℤ) (path : String) (fh : MediaPlayer) :
    p.play = Except.error PlayerError.notLoaded
    ∧ p.pause = Except.error PlayerError.notLoaded
    ∧ p.seek t = Except.error PlayerError.notLoaded
    ∧ p.rewind seconds = Except.error PlayerError.notLoaded
    ∧ p.fastForward seconds = Except.error PlayerError.notLoaded
    ∧ p.getMovieFrame absT = Except.error PlayerError.notLoaded
    ∧ p.getMetadata = Except.error PlayerError.notLoaded
    ∧ p.movieToAbsTime now t = Except.error PlayerError.notLoaded
    ∧ p.absToMovieTime now t = Except.error PlayerError.notLoaded
    ∧ p.frameIndexFromMovieTime t = Except.error PlayerError.notLoaded
    ∧ p.movieTimeFromFrameIndex i = Except.error PlayerError.notLoaded
    ∧ applyOp p FacadeOp.playOp = p
    ∧ applyOp p FacadeOp.pauseOp = p
    ∧ applyOp p (FacadeOp.seekOp t) = p
    ∧ (p.load path fh).handle.isSome = true := by
  refine ⟨?_, ?_, ?_, ?_, ?_, ?_, ?_, ?_, ?_, ?_, ?_, ?_, ?_, ?_, ?_⟩ <;>
    simp [FFPyPlayer.play, FFPyPlayer.pause, FFPyPlayer.seek,
      FFPyPlayer.rewind, FFPyPlayer.fastForward, FFPyPlayer.getMovieFrame,
      FFPyPlayer.enqueueFrame, FFPyPlayer.getMetadata,
      FFPyPlayer.movieToAbsTime, FFPyPlayer.absToMovieTime,
      FFPyPlayer.frameIndexFromMovieTime, FFPyPlayer.movieTimeFromFrameIndex,
      FFPyPlayer.load, FFPyPlayer.start, FFPyPlayer.unload, applyOp, hp]

/-- C7, witness: the freshly constructed facade has no handle. -/
theorem c7_not_loaded_errors_witness :
    FFPyPlayer.init.play = Except.error PlayerError.notLoaded :=
  (c7_not_loaded_errors FFPyPlayer.init rfl 1 2 3 4 5 "movie.mp4"
    exHandle).1

/-- C8: `stop()` on a facade that was never loaded raises the distinct
not-opened error and (the error being raised before any assignment)
leaves the facade, in particular its absent handle, untouched; on an
open facade, `stop()` signals the reader to shut down (`shutdown` sets
the stop event, upon which the loop's end-of-iteration check lands in
`STOPPED`, so the join returns), releases the reader and closes and
drops the decoder handle. -/
theorem c8_stop_behaviour :
    (∀ p : FFPyPlayer, p.handle = none →
      p.stop = Except.error PlayerError.notOpened
      ∧ applyOp p FacadeOp.stopOp = p
      ∧ (applyOp p FacadeOp.stopOp).handle = none)
    ∧ (∀ (p : FFPyPlayer) (hd : MediaPlayer) (r : MovieStreamThread),
        p.handle = some hd → p.tStream = some r →
          p.stop = Except.ok { p with tStream := none, handle := none }
          ∧ r.shutdown.stopSignal = true
          ∧ (∀ flag, stopCheck r.shutdown.stopSignal flag =
              MovieStatus.stopped)) := by
  constructor
  · intro p hp
    refine ⟨?_, ?_, ?_⟩ <;> simp [FFPyPlayer.stop, applyOp, hp]
  · intro p hd r hp ht
    refine ⟨?_, rfl, ?_⟩
    · simp [FFPyPlayer.stop, hp, ht]
    · intro flag
      simp [stopCheck, MovieStreamThread.shutdown]

/-- C8, witness: stopping the never-loaded facade raises not-opened,
and stopping the concrete open player drops reader and handle. -/
theorem c8_stop_behaviour_witness :
    FFPyPlayer.init.stop = Except.error PlayerError.notOpened
    ∧ exPlayer.stop =
        Except.ok { exPlayer with tStream := none, handle := none } :=
  ⟨(c8_stop_behaviour.1 FFPyPlayer.init rfl).1,
   (c8_stop_behaviour.2 exPlayer exHandle exReader rfl rfl).1⟩

theorem applyOp_status (p : FFPyPlayer) (op : FacadeOp)
    (h : p.status = MovieStatus.notStarted ∨
      p.status = MovieStatus.playing) :
    (applyOp p op).status = MovieStatus.notStarted ∨
      (applyOp p op).status = MovieStatus.playing := by
  cases op with
  | loadOp path fh => left; rfl
  | startOp fh => left; rfl
  | playOp =>
      rcases hh : p.handle with _ | hd
      · simpa [applyOp, FFPyPlayer.play, hh] using h
      · rcases ht : p.tStream with _ | r
        · simpa [applyOp, FFPyPlayer.play, hh, ht] using h
        · simp [applyOp, FFPyPlayer.play, hh, ht]
  | pauseOp =>
      rcases hh : p.handle with _ | hd
      · simpa [applyOp, FFPyPlayer.pause, hh] using h
      · rcases ht : p.tStream with _ | r
        · simpa [applyOp, FFPyPlayer.pause, hh, ht] using h
        · simpa [applyOp, FFPyPlayer.pause, hh, ht] using h
  | seekOp t =>
      rcases hh : p.handle with _ | hd
      · simpa [applyOp, FFPyPlayer.seek, hh] using h
      · simpa [applyOp, FFPyPlayer.seek, hh] using h
  | stopOp =>
      rcases hh : p.handle with _ | hd
      · simpa [applyOp, FFPyPlayer.stop, hh] using h
      · rcases ht : p.tStream with _ | r
        · simpa [applyOp, FFPyPlayer.stop, hh, ht] using h
        · simpa [applyOp, FFPyPlayer.stop, hh, ht] using h
  | replayOp a h1 h2 =>
      rcases hh : p.handle with _ | hd
      · simpa [applyOp, FFPyPlayer.replay, FFPyPlayer.stop, hh] using h
      · rcases ht : p.tStream with _ | r
        · simpa [applyOp, FFPyPlayer.replay, FFPyPlayer.stop, hh, ht]
            using h
        · left
          simp [applyOp, FFPyPlayer.replay, FFPyPlayer.stop, hh, ht,
            FFPyPlayer.load, FFPyPlayer.start, FFPyPlayer.unload]

theorem applyOps_status (p : FFPyPlayer) (ops : List FacadeOp)
    (h : p.status = MovieStatus.notStarted ∨
      p.status = MovieStatus.playing) :
    (applyOps p ops).status = MovieStatus.notStarted ∨
      (applyOps p ops).status = MovieStatus.playing := by
  induction ops generalizing p with
  | nil => exact h
  | cons op rest ih => exact ih (applyOp p op) (applyOp_status p op h)

/-- C9: along every sequence of facade operations (`load`, `start`,
`play`, `pause`, `seek`, `stop`, `replay`) from the initial state, the
facade status is always `NOT_STARTED` or `PLAYING`; `pause()` and
`stop()` never change the status; hence `isStopped` and `isFinished`
(the latter comparing against `FINISHED = STOPPED`) are `false` in
every reachable state. -/
theorem c9_status_invariant (ops : List FacadeOp) :
    ((applyOps FFPyPlayer.init ops).status = MovieStatus.notStarted ∨
      (applyOps FFPyPlayer.init ops).status = MovieStatus.playing)
    ∧ (applyOps FFPyPlayer.init ops).isStopped = false
    ∧ (applyOps FFPyPlayer.init ops).isFinished = false
    ∧ (∀ p : FFPyPlayer,
        (applyOp p FacadeOp.pauseOp).status = p.status
        ∧ (applyOp p FacadeOp.stopOp).status = p.status) := by
  have hinv := applyOps_status FFPyPlayer.init ops (Or.inl rfl)
  refine ⟨hinv, ?_, ?_, ?_⟩
  · rcases hinv with h | h <;>
      · simp [FFPyPlayer.isStopped, h]
        decide
  · rcases hinv with h | h <;>
      · simp [FFPyPlayer.isFinished, FINISHED, h]
        decide
  · intro p
    constructor
    · rcases hh : p.handle with _ | hd
      · simp [applyOp, FFPyPlayer.pause, hh]
      · rcases ht : p.tStream with _ | r <;>
          simp [applyOp, FFPyPlayer.pause, hh, ht]
    · rcases hh : p.handle with _ | hd
      · simp [applyOp, FFPyPlayer.stop, hh]
      · rcases ht : p.tStream with _ | r <;>
          simp [applyOp, FFPyPlayer.stop, hh, ht]

/-- C10: the `StreamData.metadata` and `StreamData.streamStatus`
property setters raise `TypeError` for every value — `None`, a
correctly typed instance, or anything else — because the guard
`(not isinstance(value, T)) or (value is not None)` holds for every
value; the setters are unusable for all inputs. -/
theorem c10_setters_always_raise (d : StreamData) (v : PyValue) :
    d.setMetadata v = Except.error PlayerError.typeMismatch
    ∧ d.setStreamStatus v = Except.error PlayerError.typeMismatch := by
  cases v <;>
    simp [StreamData.setMetadata, StreamData.setStreamStatus,
      isinstanceMovieMetadata, isinstanceStreamStatus, pyIsNone]

end FFPyPlayerModel
